import Mathlib

/-!
Verification development for the BlueFlagBot decision pipeline.

The Python sources (src/core/scoring.py, src/core/database.py,
src/core/bot.py, src/api/youtube.py) are shallowly embedded below:
pure methods become Lean functions, stateful database methods become
explicit state passing over record types mirroring the SQLite tables,
and wall-clock timestamps become integer seconds passed explicitly.
-/

/-! ## String utilities modelling the Python primitives used by the code -/

/-- Python `str.lower()` restricted to ASCII, which is all the code's
keyword configuration and the concrete inputs use. -/
def pyLower (s : String) : String := String.mk (s.data.map Char.toLower)

/-- Does `hay` start with `needle` (on raw character lists)? -/
def listStartsWith : List Char → List Char → Bool
  | _, [] => true
  | [], _ :: _ => false
  | h :: hs, n :: ns => h == n && listStartsWith hs ns

/-- Contiguous-subsequence test on character lists. -/
def listContainsSeq (hay needle : List Char) : Bool :=
  match hay with
  | [] => needle.isEmpty
  | _ :: t => listStartsWith hay needle || listContainsSeq t needle

/-- Python's substring operator `needle in hay`. -/
def strContains (hay needle : String) : Bool :=
  listContainsSeq hay.data needle.data

/-! ## Content scorer (src/core/scoring.py, class ContentScorer) -/

/-- The keyword and filtering configuration read by `ContentScorer.__init__`
(`self.active_keywords` categories and the `filtering` defaults). -/
structure ScorerConfig where
  auto_reject : List String := []
  quality_boosters : List String := []
  race_content : List String := []
  analysis_content : List String := []
  warning_signs : List String := []
  live_content_bonus : Int := 25
  min_video_length_seconds : Int := 60
  min_quality_threshold : Int := 65
  livestream_quality_threshold : Int := 60

/-- The fields of the `video_data` dictionary that the scorer reads.
Timestamps are integer seconds; `duration` is the ISO-8601 duration
string when present (`none` models a missing key). -/
structure VideoData where
  video_id : String := ""
  title : String
  channel_name : String := ""
  channel_id : String := ""
  url : String := ""
  description : String := ""
  view_count : Int := 0
  published_at : Int := 0
  is_livestream : Bool := false
  is_upcoming : Bool := false
  scheduled_start_time : Option Int := none
  duration : Option String := none
  quality_score : Int := 0
  deriving DecidableEq

/-- One iteration of a keyword-category loop in
`calculate_content_quality_score`: `if keyword in title: score += titleW
elif keyword in description: score += descW`. -/
def keywordStep (titleW descW : Int) (title desc : String) (s : Int) (kw : String) : Int :=
  if strContains title (pyLower kw) then s + titleW
  else if strContains desc (pyLower kw) then s + descW
  else s

/-- The contribution of a single keyword to its category's points
(title weight if the keyword matches the title, else the description
weight if it matches the description, else nothing). -/
def keywordPoints (titleW descW : Int) (title desc : String) (kw : String) : Int :=
  if strContains title (pyLower kw) then titleW
  else if strContains desc (pyLower kw) then descW
  else 0

/-- `ContentScorer.calculate_content_quality_score` (scoring.py:38-128).
`now` is the value of `datetime.now()`; the age test
`age_hours > 24` is `now - published_at > 86400` in seconds. -/
def calculate_content_quality_score (cfg : ScorerConfig) (now : Int) (v : VideoData) : Int :=
  let title := pyLower v.title
  let description := pyLower v.description
  if cfg.auto_reject.any (fun kw => strContains title (pyLower kw)) then 0
  else
    let score : Int := 50
    let score := cfg.quality_boosters.foldl (keywordStep 10 5 title description) score
    let score := cfg.race_content.foldl (keywordStep 15 8 title description) score
    let score := cfg.analysis_content.foldl (keywordStep 8 4 title description) score
    let score := cfg.warning_signs.foldl (keywordStep (-15) (-8) title description) score
    let score := if v.view_count > 5000 then score + 5
      else if v.view_count > 2500 then score + 3
      else if v.view_count > 1000 then score + 1
      else score
    let score := if now - v.published_at > 86400 && v.view_count < 500 then score - 10 else score
    let score := if v.is_livestream then score + cfg.live_content_bonus else score
    let score := if (strContains title "stage" && (strContains title "rally" || strContains title "wrc"))
        || strContains title "special stage" then score + 10 else score
    max 0 (min 100 score)

/-- A category's points as the spec sentence for C8 reads: title matches
count at the higher weight, and description matches count at the lower
weight only when no keyword of the whole category matched the title.
(Refinement comparison definition, following the spec's words, to be
compared with the per-keyword `keywordStep` fold the code performs.) -/
def categoryPointsSpecReading (titleW descW : Int) (title desc : String) (kws : List String) : Int :=
  let titlePts := titleW * ((kws.filter (fun kw => strContains title (pyLower kw))).length : Int)
  if kws.any (fun kw => strContains title (pyLower kw)) then titlePts
  else titlePts + descW * ((kws.filter (fun kw => strContains desc (pyLower kw))).length : Int)

/-! ## MD5 (hashlib.md5, used by Database.generate_title_hash)

Machine words are `Nat` reduced modulo `2^32`; messages are byte lists. -/

/-- Truncation to a 32-bit word. -/
def m32 (n : Nat) : Nat := n % 4294967296

/-- 32-bit complement of a word already below `2^32`. -/
def not32 (x : Nat) : Nat := x ^^^ 4294967295

/-- 32-bit left rotation of a word already below `2^32`. -/
def rotl32 (x n : Nat) : Nat := m32 (x <<< n) ||| (x >>> (32 - n))

def md5F (b c d : Nat) : Nat := (b &&& c) ||| (not32 b &&& d)

def md5G (b c d : Nat) : Nat := (b &&& d) ||| (c &&& not32 d)

def md5H (b c d : Nat) : Nat := b ^^^ c ^^^ d

def md5I (b c d : Nat) : Nat := c ^^^ (b ||| not32 d)

/-- The 64 MD5 sine-derived constants. -/
def md5K : List Nat :=
  [0xd76aa478, 0xe8c7b756, 0x242070db, 0xc1bdceee,
   0xf57c0faf, 0x4787c62a, 0xa8304613, 0xfd469501,
   0x698098d8, 0x8b44f7af, 0xffff5bb1, 0x895cd7be,
   0x6b901122, 0xfd987193, 0xa679438e, 0x49b40821,
   0xf61e2562, 0xc040b340, 0x265e5a51, 0xe9b6c7aa,
   0xd62f105d, 0x02441453, 0xd8a1e681, 0xe7d3fbc8,
   0x21e1cde6, 0xc33707d6, 0xf4d50d87, 0x455a14ed,
   0xa9e3e905, 0xfcefa3f8, 0x676f02d9, 0x8d2a4c8a,
   0xfffa3942, 0x8771f681, 0x6d9d6122, 0xfde5380c,
   0xa4beea44, 0x4bdecfa9, 0xf6bb4b60, 0xbebfbc70,
   0x289b7ec6, 0xeaa127fa, 0xd4ef3085, 0x04881d05,
   0xd9d4d039, 0xe6db99e5, 0x1fa27cf8, 0xc4ac5665,
   0xf4292244, 0x432aff97, 0xab9423a7, 0xfc93a039,
   0x655b59c3, 0x8f0ccc92, 0xffeff47d, 0x85845dd1,
   0x6fa87e4f, 0xfe2ce6e0, 0xa3014314, 0x4e0811a1,
   0xf7537e82, 0xbd3af235, 0x2ad7d2bb, 0xeb86d391]

/-- The 64 per-step rotation amounts. -/
def md5S : List Nat :=
  [7, 12, 17, 22, 7, 12, 17, 22, 7, 12, 17, 22, 7, 12, 17, 22,
   5, 9, 14, 20, 5, 9, 14, 20, 5, 9, 14, 20, 5, 9, 14, 20,
   4, 11, 16, 23, 4, 11, 16, 23, 4, 11, 16, 23, 4, 11, 16, 23,
   6, 10, 15, 21, 6, 10, 15, 21, 6, 10, 15, 21, 6, 10, 15, 21]

/-- One of the 64 MD5 steps on state `(a, b, c, d)`. -/
def md5Round (block : List Nat) (st : Nat × Nat × Nat × Nat) (i : Nat) : Nat × Nat × Nat × Nat :=
  let (a, b, c, d) := st
  let fg : Nat × Nat :=
    if i < 16 then (md5F b c d, i)
    else if i < 32 then (md5G b c d, (5 * i + 1) % 16)
    else if i < 48 then (md5H b c d, (3 * i + 5) % 16)
    else (md5I b c d, (7 * i) % 16)
  let f := m32 (fg.1 + a + md5K.getD i 0 + block.getD fg.2 0)
  (d, m32 (b + rotl32 f (md5S.getD i 0)), b, c)

/-- Process one 16-word block. -/
def md5ProcessBlock (st : Nat × Nat × Nat × Nat) (block : List Nat) : Nat × Nat × Nat × Nat :=
  let r := (List.range 64).foldl (md5Round block) st
  (m32 (st.1 + r.1), m32 (st.2.1 + r.2.1), m32 (st.2.2.1 + r.2.2.1), m32 (st.2.2.2 + r.2.2.2))

/-- 64 bytes as 16 little-endian 32-bit words. -/
def bytesToWords (bs : List Nat) : List Nat :=
  (List.range 16).map (fun j =>
    bs.getD (4 * j) 0 + 256 * bs.getD (4 * j + 1) 0
      + 65536 * bs.getD (4 * j + 2) 0 + 16777216 * bs.getD (4 * j + 3) 0)

/-- Split off the first `n` elements (and the remainder). -/
def takeChunk : Nat → List Nat → List Nat × List Nat
  | 0, rest => ([], rest)
  | _ + 1, [] => ([], [])
  | n + 1, b :: bs =>
    let r := takeChunk n bs
    (b :: r.1, r.2)

/-- Split a byte list into 64-byte chunks; the fuel argument (the list
length suffices, each chunk consuming at least one element) keeps the
recursion structural. -/
def toChunks64Fuel : Nat → List Nat → List (List Nat)
  | 0, _ => []
  | _, [] => []
  | fuel + 1, b :: bs =>
    let r := takeChunk 63 bs
    (b :: r.1) :: toChunks64Fuel fuel r.2

/-- Split a byte list into 64-byte chunks. -/
def toChunks64 (bs : List Nat) : List (List Nat) := toChunks64Fuel bs.length bs

/-- MD5 padding: `0x80`, zeros to 56 mod 64, then the bit length as
eight little-endian bytes. -/
def md5Pad (msg : List Nat) : List Nat :=
  let len := msg.length
  let zeros := (119 - (len % 64)) % 64
  let bitLen := (8 * len) % 18446744073709551616
  msg ++ [0x80] ++ List.replicate zeros 0
    ++ (List.range 8).map (fun j => (bitLen >>> (8 * j)) % 256)

def md5Init : Nat × Nat × Nat × Nat := (0x67452301, 0xefcdab89, 0x98badcfe, 0x10325476)

/-- A 32-bit word rendered as its four little-endian bytes. -/
def wordLEBytes (w : Nat) : List Nat := [w % 256, (w >>> 8) % 256, (w >>> 16) % 256, (w >>> 24) % 256]

def hexDigitChar (n : Nat) : Char := if n < 10 then Char.ofNat (48 + n) else Char.ofNat (87 + n)

def byteHex (b : Nat) : List Char := [hexDigitChar (b / 16), hexDigitChar (b % 16)]

/-- `hashlib.md5(bytes).hexdigest()` as a function on byte lists. -/
def md5Hex (msg : List Nat) : String :=
  let chunks := toChunks64 (md5Pad msg)
  let r := chunks.foldl (fun st ch => md5ProcessBlock st (bytesToWords ch)) md5Init
  let digest := wordLEBytes r.1 ++ wordLEBytes r.2.1 ++ wordLEBytes r.2.2.1 ++ wordLEBytes r.2.2.2
  String.mk (digest.foldr (fun b acc => byteHex b ++ acc) [])

/-- UTF-8 encoding of one character (Python `str.encode()`). -/
def utf8Char (c : Char) : List Nat :=
  let n := c.toNat
  if n < 128 then [n]
  else if n < 2048 then [192 + n / 64, 128 + n % 64]
  else if n < 65536 then [224 + n / 4096, 128 + (n / 64) % 64, 128 + n % 64]
  else [240 + n / 262144, 128 + (n / 4096) % 64, 128 + (n / 64) % 64, 128 + n % 64]

def utf8Bytes (s : String) : List Nat := s.data.foldr (fun c acc => utf8Char c ++ acc) []

/-! ## Title-hash normalization (Database.generate_title_hash, database.py:388-417) -/

/-- Python `\s` on the ASCII range (space, tab, newline, carriage
return, vertical tab, form feed). -/
def pyIsSpace (c : Char) : Bool :=
  c == ' ' || c == '\t' || c == '\n' || c == '\r' || c.toNat == 11 || c.toNat == 12

/-- Python `\w` on the ASCII range (alphanumeric or underscore). -/
def pyIsWordChar (c : Char) : Bool := c.isAlphanum || c == '_'

/-- `re.sub(r'[^\w\s]', '', s)`: drop every character that is neither a
word character nor whitespace. -/
def stripPunct (cs : List Char) : List Char :=
  cs.filter (fun c => pyIsWordChar c || pyIsSpace c)

/-- `re.sub(r'\s+', ' ', s)`: collapse whitespace runs to single spaces.
The flag records whether the previous character was whitespace. -/
def collapseSpacesAux (prevSpace : Bool) : List Char → List Char
  | [] => []
  | c :: cs =>
    if pyIsSpace c then
      if prevSpace then collapseSpacesAux true cs
      else ' ' :: collapseSpacesAux true cs
    else c :: collapseSpacesAux false cs

/-- Python `str.strip()`. -/
def pyStrip (cs : List Char) : List Char :=
  ((cs.dropWhile pyIsSpace).reverse.dropWhile pyIsSpace).reverse

/-- Python `str.split()` with no argument: split on whitespace runs,
discarding empty tokens. `acc` holds the current token reversed. -/
def pySplitAux : List Char → List Char → List String
  | [], acc => if acc.isEmpty then [] else [String.mk acc.reverse]
  | c :: cs, acc =>
    if pyIsSpace c then
      if acc.isEmpty then pySplitAux cs []
      else String.mk acc.reverse :: pySplitAux cs []
    else pySplitAux cs (c :: acc)

/-- The `common_words` stopword list of `generate_title_hash`. -/
def common_words : List String :=
  ["highlights", "race", "qualifying", "practice", "session", "live", "full",
   "rally", "stage", "wrc", "special"]

/-- The non-stopword tokens of a title after the normalization steps of
`generate_title_hash` (lowercase, strip punctuation, collapse
whitespace, strip, split, remove stopwords). -/
def titleWords (title : String) : List String :=
  let normalized := pyStrip (collapseSpacesAux false (stripPunct (pyLower title).data))
  (pySplitAux normalized []).filter (fun w => !common_words.contains w)

/-- `Database.generate_title_hash`: sort the remaining tokens, join with
single spaces, and keep the first 16 hex digits of the MD5. -/
def generate_title_hash (title : String) : String :=
  let content := String.intercalate " " (List.insertionSort (· ≤ ·) (titleWords title))
  String.mk ((md5Hex (utf8Bytes content)).data.take 16)

/-! ## State store (src/core/database.py, class Database)

Each SQLite table becomes a list of rows; `datetime.now()` /
`CURRENT_TIMESTAMP` become an explicit integer-seconds `now`. -/

/-- A row of the `posted_videos` table (the fields later decisions read). -/
structure PostedRecord where
  video_id : String
  posted_at : Int
  deriving DecidableEq

/-- A row of the `lemmy_posts` table. -/
structure LemmyPostRecord where
  post_id : Nat
  url : String
  deriving DecidableEq

/-- A row of the `duplicate_tracking` table. -/
structure DupEntry where
  video_id : String
  title_hash : String
  channel_id : String
  detected_at : Int
  deriving DecidableEq

/-- A row of the `old_video_cache` table. -/
structure CacheEntry where
  video_id : String
  channel_id : String
  cached_at : Int
  expiry : Int
  deriving DecidableEq

/-- A row of the `bot_stats` table. -/
structure BotStatsRow where
  date : Int
  posts_made : Int := 0
  youtube_quota_used : Int := 0
  errors_count : Int := 0
  videos_processed : Int := 0
  deriving DecidableEq

/-- The database tables the decision pipeline touches. -/
structure DBState where
  posted_videos : List PostedRecord := []
  lemmy_posts : List LemmyPostRecord := []
  duplicate_tracking : List DupEntry := []
  old_video_cache : List CacheEntry := []
  deriving DecidableEq

/-- `Database.check_for_duplicates` (database.py:334-386): three checks
short-circuiting on first match, then `INSERT OR IGNORE` of the fresh
tracking entry (the `UNIQUE(video_id, title_hash)` constraint makes the
insert a no-op when that pair is already present, keeping the old
`detected_at`). Returns the decision and the updated state. -/
def check_for_duplicates (db : DBState) (now : Int) (video_id title channel_id : String)
    (hours : Int) : Bool × DBState :=
  if db.posted_videos.any (fun p => p.video_id == video_id) then (true, db)
  else if db.lemmy_posts.any (fun p => strContains p.url video_id) then (true, db)
  else
    let cutoff := now - hours * 3600
    let title_hash := generate_title_hash title
    if db.duplicate_tracking.any (fun e =>
        e.title_hash == title_hash && e.channel_id == channel_id
          && decide (e.detected_at > cutoff)) then
      (true, db)
    else
      let inserted :=
        if db.duplicate_tracking.any (fun e =>
            e.video_id == video_id && e.title_hash == title_hash) then
          db.duplicate_tracking
        else db.duplicate_tracking ++ [⟨video_id, title_hash, channel_id, now⟩]
      (false, { db with duplicate_tracking := inserted })

/-- `Database.get_recent_posts_count` (database.py:497-512): rows of
`posted_videos` with `posted_at > now - hours`. -/
def get_recent_posts_count (posted : List PostedRecord) (now : Int) (hours : Int) : Nat :=
  (posted.filter (fun p => decide (p.posted_at > now - hours * 3600))).length

/-- `Database.record_posted_video` (database.py:288-316), restricted to
the columns later decisions read (`video_id`, `posted_at`). -/
def record_posted_video (db : DBState) (v : VideoData) (now : Int) : DBState :=
  { db with posted_videos := db.posted_videos ++ [⟨v.video_id, now⟩] }

/-- The exception every non-livestream call of
`Database.add_video_to_old_cache` raises: its SQL
`VALUES (?, ?, datetime('now'), datetime('now', '+? days'))` contains
only two placeholders — the third `?` sits inside the string literal
`'+? days'` — while three parameters `(video_id, channel_id, days)`
are bound, so `cursor.execute` raises `sqlite3.ProgrammingError`
before anything is written. -/
def sqliteBindingError : String :=
  "sqlite3.ProgrammingError: statement uses 2 bindings, 3 supplied"

/-- `Database.add_video_to_old_cache` (database.py:437-457): early
return (no write, no SQL) when the livestream flag is set; otherwise
the `INSERT OR REPLACE` is executed with three parameters against two
placeholders and raises, so no row is ever inserted — the error
propagates to the caller (`execute_and_commit` rolls back and
re-raises). -/
def add_video_to_old_cache (cache : List CacheEntry) (video_id channel_id : String)
    (is_livestream : Bool) (now : Int) (days : Int := 30) :
    Except String (List CacheEntry) :=
  if is_livestream then .ok cache
  else .error sqliteBindingError

/-- `Database.is_video_in_old_cache` (database.py:419-435). -/
def is_video_in_old_cache (cache : List CacheEntry) (now : Int) (video_id : String) : Bool :=
  cache.any (fun e => e.video_id == video_id && decide (e.expiry > now))

/-- `Database.get_youtube_quota_usage` (database.py:514-526): today's
`youtube_quota_used`, or 0 when no row exists. -/
def get_youtube_quota_usage (stats : List BotStatsRow) (today : Int) : Int :=
  match stats.find? (fun r => r.date == today) with
  | some r => r.youtube_quota_used
  | none => 0

/-! ## YouTube API layer (src/api/youtube.py, class YouTubeAPI) -/

/-- Value of a decimal digit run. -/
def digitsToNat (ds : List Char) : Nat := ds.foldl (fun n c => 10 * n + (c.toNat - 48)) 0

/-- One optional `(\d+)X` component of the duration regex: consume a
digit run followed by `letter`, or consume nothing. -/
def ptComponentAux (letter : Char) (cs : List Char) : Option (Nat × List Char) :=
  let ds := cs.takeWhile Char.isDigit
  let rest := cs.dropWhile Char.isDigit
  if ds.isEmpty then none
  else match rest with
    | c :: rest2 => if c == letter then some (digitsToNat ds, rest2) else none
    | [] => none

def ptComponent (letter : Char) (cs : List Char) : Nat × List Char :=
  match ptComponentAux letter cs with
  | some r => r
  | none => (0, cs)

/-- `re.match(r'PT(?:(\d+)H)?(?:(\d+)M)?(?:(\d+)S)?', duration)`:
`none` when the anchored match fails (no `PT` prefix), otherwise the
`(hours, minutes, seconds)` groups with absent groups as 0. -/
def parsePT (duration : String) : Option (Nat × Nat × Nat) :=
  match duration.data with
  | 'P' :: 'T' :: rest =>
    let hR := ptComponent 'H' rest
    let mR := ptComponent 'M' hR.2
    let sR := ptComponent 'S' mR.2
    some (hR.1, mR.1, sR.1)
  | _ => none

/-- The configuration keys `YouTubeAPI` reads from `filtering` and `scan`. -/
structure YTConfig where
  video_max_age_hours : Int := 24
  min_video_length_seconds : Int := 60

namespace YouTubeAPI

/-- `YouTubeAPI.is_youtube_short` (youtube.py:425-458): the exact
string `P0D` is exempted before the regex parse; a failed parse counts
as a Short. -/
def is_youtube_short (cfg : YTConfig) (duration : String) : Bool :=
  if duration == "P0D" then false
  else match parsePT duration with
    | none => true
    | some (h, m, s) =>
      decide (((h * 3600 + m * 60 + s : Nat) : Int) < cfg.min_video_length_seconds)

end YouTubeAPI

/-- A raw item of the video-details response as
`get_channel_recent_videos` reads it: `scheduled_start_time` models
`scheduledStartTime` in `liveStreamingDetails`, `actual_start_time`
models `actualStartTime`, and `has_actual_end` models the presence of
`actualEndTime`. -/
structure VideoDetailItem where
  video_id : String
  title : String := ""
  channel_name : String := ""
  channel_id : String
  published_at : Int := 0
  description : String := ""
  view_count : Int := 0
  duration : String
  scheduled_start_time : Option Int := none
  actual_start_time : Option Int := none
  has_actual_end : Bool := false
  deriving DecidableEq

namespace YouTubeAPI

/-- The per-item classification step of
`YouTubeAPI.get_channel_recent_videos` (youtube.py:355-417), with a
state store attached (the bot always constructs one): derive the
live/upcoming state, then in order (1) try to cache-and-skip ordinary
items older than the cutoff, (2) try to cache-and-skip upcoming items
whose scheduled start is in the past, (3) try to cache-and-skip
Shorts, otherwise keep the assembled `video_data`. Each cache attempt
calls `add_video_to_old_cache`, whose raise is not caught by the
surrounding `except HttpError` — the exception propagates and the
per-channel scan aborts instead of discarding the item. -/
def classifyVideoItem (cfg : YTConfig) (cache : List CacheEntry) (now : Int)
    (item : VideoDetailItem) : Except String (Option VideoData × List CacheEntry) :=
  let is_upcoming := item.scheduled_start_time.isSome
  let is_livestream := item.actual_start_time.isSome && !item.has_actual_end
  let cutoff := now - cfg.video_max_age_hours * 3600
  if !is_livestream && !is_upcoming && decide (item.published_at < cutoff) then
    match add_video_to_old_cache cache item.video_id item.channel_id false now with
    | .ok cache2 => .ok (none, cache2)
    | .error e => .error e
  else if is_upcoming && (match item.scheduled_start_time with
      | some t => decide (t < now)
      | none => false) then
    match add_video_to_old_cache cache item.video_id item.channel_id false now with
    | .ok cache2 => .ok (none, cache2)
    | .error e => .error e
  else if is_youtube_short cfg item.duration then
    match add_video_to_old_cache cache item.video_id item.channel_id false now with
    | .ok cache2 => .ok (none, cache2)
    | .error e => .error e
  else
    .ok (some
      { video_id := item.video_id
        title := item.title
        channel_name := item.channel_name
        channel_id := item.channel_id
        url := item.video_id
        description := item.description
        view_count := item.view_count
        published_at := item.published_at
        is_livestream := is_livestream
        is_upcoming := is_upcoming
        scheduled_start_time := item.scheduled_start_time
        duration := some item.duration }, cache)

end YouTubeAPI

/-! ## Quota gate (youtube.py:126-201) -/

/-- The quota limits read in `YouTubeAPI.__init__`. -/
structure QuotaConfig where
  daily_quota_limit : Int := 10000
  run_quota_limit : Int := 300

/-- The mutable quota state: the in-memory per-run counter and the
durable `bot_stats` table (`none` models a bot constructed without a
database). -/
structure QuotaState where
  quota_used_this_run : Int := 0
  db : Option (List BotStatsRow) := some []

/-- The read-then-upsert of `track_quota_usage` on `bot_stats`: add to
today's row, or insert a fresh row carrying only the quota column
(`date` is UNIQUE, so at most one row matches). -/
def upsert_quota : List BotStatsRow → Int → Int → List BotStatsRow
  | [], today, cost => [{ date := today, youtube_quota_used := cost }]
  | r :: rs, today, cost =>
    if r.date == today then { r with youtube_quota_used := r.youtube_quota_used + cost } :: rs
    else r :: upsert_quota rs today cost

namespace YouTubeAPI

/-- `YouTubeAPI.track_quota_usage` (youtube.py:126-160): bump the
in-memory counter, and when a database is attached upsert today's
durable `youtube_quota_used`. -/
def track_quota_usage (st : QuotaState) (today cost : Int) : QuotaState :=
  { quota_used_this_run := st.quota_used_this_run + cost
    db := match st.db with
      | some stats => some (upsert_quota stats today cost)
      | none => none }

/-- `YouTubeAPI.check_quota_limit` (youtube.py:162-201): a pure
admission decision — the method only reads the counters (the state is
untouched; no write appears in its body). -/
def check_quota_limit (cfg : QuotaConfig) (st : QuotaState) (today : Int)
    (estimated_cost : Int) : Bool :=
  if st.quota_used_this_run + estimated_cost > cfg.run_quota_limit then false
  else match st.db with
    | some stats =>
      if get_youtube_quota_usage stats today + estimated_cost > cfg.daily_quota_limit then false
      else true
    | none => true

end YouTubeAPI

namespace ContentScorer

/-- `ContentScorer.is_youtube_short` (scoring.py:164-202): title
markers first, then the duration parse — with no `P0D` exemption; an
absent or empty (falsy) duration skips the duration check. -/
def is_youtube_short (cfg : ScorerConfig) (v : VideoData) : Bool :=
  let title := pyLower v.title
  if strContains title "#shorts" || strContains title "#short"
      || strContains title "#youtubeshorts" then true
  else match v.duration with
    | none => false
    | some d =>
      if d == "" then false
      else match parsePT d with
        | none => true
        | some (h, m, s) =>
          decide (((h * 3600 + m * 60 + s : Nat) : Int) < cfg.min_video_length_seconds)

/-- `ContentScorer.is_acceptable_content` (scoring.py:130-162):
threshold check (livestreams use the lower threshold), then the Short
check as a hard reject. -/
def is_acceptable_content (cfg : ScorerConfig) (now : Int) (v : VideoData) : Bool :=
  let quality_score := calculate_content_quality_score cfg now v
  let threshold := if v.is_livestream then cfg.livestream_quality_threshold
    else cfg.min_quality_threshold
  if quality_score < threshold then false
  else if is_youtube_short cfg v then false
  else true

end ContentScorer

/-! ## Bot orchestration (src/core/bot.py, class BlueFlagBot) -/

/-- The `scan` and `filtering` keys `BlueFlagBot` reads. -/
structure BotConfig where
  max_posts_per_run : Nat := 5
  max_posts_per_day : Nat := 100
  max_posts_per_hour : Nat := 20
  livestream_quality_threshold : Int := 60
  min_quality_threshold : Int := 65

namespace BlueFlagBot

/-- `BlueFlagBot.should_post_video` (bot.py:307-346): with no database
everything is admitted; otherwise the rolling 24h and 1h counts are
checked against the caps before the applicable quality threshold. -/
def should_post_video (cfg : BotConfig) (db : Option (List PostedRecord)) (now : Int)
    (v : VideoData) : Bool :=
  match db with
  | none => true
  | some posted =>
    if get_recent_posts_count posted now 24 ≥ cfg.max_posts_per_day then false
    else if get_recent_posts_count posted now 1 ≥ cfg.max_posts_per_hour then false
    else if v.is_livestream then
      if v.quality_score < cfg.livestream_quality_threshold then false else true
    else
      if v.quality_score < cfg.min_quality_threshold then false else true

/-- `BlueFlagBot.create_lemmy_post` (bot.py:348-417), production path.
The two external calls are passed as their outcomes: `community_id`
(`None` on failure) and `createResult`, the post id returned by
`LemmyAPI.create_post` (`None` both when the call returns a falsy post
and when it raises, both of which the method turns into `None`). The
posted-video record is written only after a successful create. -/
def create_lemmy_post (db : Option DBState) (now : Int) (community_id : Option Nat)
    (createResult : Option Nat) (v : VideoData) : Option Nat × Option DBState :=
  match community_id with
  | none => (none, db)
  | some _ =>
    match createResult with
    | none => (none, db)
    | some post_id =>
      (some post_id, match db with
        | some d => some (record_posted_video d v now)
        | none => none)

/-- The candidate loop of `BlueFlagBot.run_once` (bot.py:157-190): stop
at the per-run cap, skip candidates `should_post_video` rejects, then
publish — a successful create bumps `posts_made`, a failed one bumps
`errors` and the loop continues with the next candidate. Candidates
are paired with the outcome of their create call. -/
def run_once_loop (cfg : BotConfig) (community_id : Option Nat) (db : Option DBState)
    (now : Int) (cands : List (VideoData × Option Nat)) (posts_made errors : Nat) :
    Option DBState × Nat × Nat :=
  match cands with
  | [] => (db, posts_made, errors)
  | (v, outcome) :: rest =>
    if posts_made ≥ cfg.max_posts_per_run then (db, posts_made, errors)
    else if !should_post_video cfg (db.map (fun d => d.posted_videos)) now v then
      run_once_loop cfg community_id db now rest posts_made errors
    else
      match create_lemmy_post db now community_id outcome v with
      | (some _, db2) => run_once_loop cfg community_id db2 now rest (posts_made + 1) errors
      | (none, db2) => run_once_loop cfg community_id db2 now rest posts_made (errors + 1)

end BlueFlagBot

/-! ## Claim theorems -/

/-- C1: for every candidate, `calculate_content_quality_score` returns
an integer in `[0, 100]`, and any case-insensitive auto-reject keyword
match in the title forces the result to exactly 0 regardless of every
other candidate field. -/
theorem score_in_range_and_auto_reject (cfg : ScorerConfig) (now : Int) (v : VideoData) :
    (0 ≤ calculate_content_quality_score cfg now v
      ∧ calculate_content_quality_score cfg now v ≤ 100)
    ∧ ∀ kw ∈ cfg.auto_reject,
        strContains (pyLower v.title) (pyLower kw) = true →
        calculate_content_quality_score cfg now v = 0 := by
  constructor
  · simp only [calculate_content_quality_score]
    split
    · exact ⟨le_refl 0, by norm_num⟩
    · exact ⟨le_max_left 0 _, max_le (by norm_num) (min_le_left _ _)⟩
  · intro kw hmem hmatch
    simp only [calculate_content_quality_score]
    rw [if_pos]
    exact List.any_eq_true.mpr ⟨kw, hmem, hmatch⟩

/-- Witness for C1 at a concrete configuration and candidate: the
score is in range and the auto-reject keyword `shorts` zeroes it. -/
theorem score_in_range_and_auto_reject_witness :
    (0 ≤ calculate_content_quality_score { auto_reject := ["shorts", "podcast"] } 0
        { title := "Race highlights #shorts", view_count := 90000 }
      ∧ calculate_content_quality_score { auto_reject := ["shorts", "podcast"] } 0
        { title := "Race highlights #shorts", view_count := 90000 } ≤ 100)
    ∧ calculate_content_quality_score { auto_reject := ["shorts", "podcast"] } 0
        { title := "Race highlights #shorts", view_count := 90000 } = 0 :=
  ⟨(score_in_range_and_auto_reject _ 0 _).1,
    (score_in_range_and_auto_reject _ 0 _).2 "shorts" (by simp) (by decide)⟩

/-- C8 counterexample: with boosters `official` (title match) and
`extended` (description match only), the scorer adds the description
points (score 50 + 10 + 5 = 65) even though a keyword of the category
matched the title; under the claim's reading the category would
contribute only 10. -/
theorem keyword_category_counterexample :
    calculate_content_quality_score
      { quality_boosters := ["official", "extended"] } 0
      { title := "Official Race", description := "extended highlights" } = 65
    ∧ categoryPointsSpecReading 10 5 (pyLower "Official Race") (pyLower "extended highlights")
        ["official", "extended"] = 10
    ∧ strContains (pyLower "Official Race") (pyLower "official") = true := by decide

/-- C8 amended: the title-first precedence is per keyword, not per
category — each category fold is the sum of independent per-keyword
contributions, and a keyword that matches the title contributes its
title weight (no description points for that keyword). -/
theorem keyword_category_per_keyword (tW dW : Int) (title desc : String)
    (kws : List String) (s : Int) :
    kws.foldl (keywordStep tW dW title desc) s
      = s + (kws.map (keywordPoints tW dW title desc)).sum
    ∧ ∀ kw, strContains title (pyLower kw) = true →
        keywordPoints tW dW title desc kw = tW := by
  constructor
  · induction kws generalizing s with
    | nil => simp
    | cons k ks ih =>
      simp only [List.foldl_cons, List.map_cons, List.sum_cons, ih]
      simp only [keywordStep, keywordPoints]
      split_ifs <;> omega
  · intro kw h
    simp [keywordPoints, h]

/-- Witness for C8 amended: one title-matching and one
description-matching booster contribute 10 and 5 independently. -/
theorem keyword_category_per_keyword_witness :
    ["official", "extended"].foldl
        (keywordStep 10 5 (pyLower "Official Race") (pyLower "extended highlights")) 50
      = 50 + (["official", "extended"].map
          (keywordPoints 10 5 (pyLower "Official Race") (pyLower "extended highlights"))).sum
    ∧ keywordPoints 10 5 (pyLower "Official Race") (pyLower "extended highlights") "official"
        = 10 :=
  ⟨(keyword_category_per_keyword 10 5 (pyLower "Official Race")
      (pyLower "extended highlights") ["official", "extended"] 50).1,
    (keyword_category_per_keyword 10 5 (pyLower "Official Race")
      (pyLower "extended highlights") ["official", "extended"] 50).2 "official" (by decide)⟩

/-- C6: two titles whose normalized non-stopword token multisets agree
(same tokens after lowercasing, punctuation stripping, whitespace
collapsing and stopword removal, in any order) receive the same hash:
sorting makes the joined content string — and hence the MD5 — equal. -/
theorem generate_title_hash_order_invariant (t1 t2 : String)
    (h : ((titleWords t1 : List String) : Multiset String) = (titleWords t2 : Multiset String)) :
    generate_title_hash t1 = generate_title_hash t2 := by
  have hp : (titleWords t1).Perm (titleWords t2) := Multiset.coe_eq_coe.mp h
  have hs : List.insertionSort (· ≤ ·) (titleWords t1)
      = List.insertionSort (· ≤ ·) (titleWords t2) :=
    List.eq_of_perm_of_sorted
      (((List.perm_insertionSort _ _).trans hp).trans (List.perm_insertionSort _ _).symm)
      (List.sorted_insertionSort _ _) (List.sorted_insertionSort _ _)
  unfold generate_title_hash
  rw [hs]

/-- Witness for C6 at the spec's example pair: both titles normalize to
the token multiset consisting of `finland` alone, so they hash alike. -/
theorem generate_title_hash_order_invariant_witness :
    ((titleWords "WRC Rally Finland Highlights" : List String) : Multiset String)
      = (titleWords "Highlights: Rally Finland WRC" : Multiset String)
    ∧ generate_title_hash "WRC Rally Finland Highlights"
      = generate_title_hash "Highlights: Rally Finland WRC" :=
  ⟨by decide, generate_title_hash_order_invariant _ _ (by decide)⟩

/-- C2 amended: when no published record, destination-post URL or
in-window title-hash entry matches AND no tracking row already carries
the same `(video_id, title_hash)` pair (the `INSERT OR IGNORE` key),
the first call returns false and appends the tracking entry stamped
`now`, and a second call inside the tracking window returns true. -/
theorem check_for_duplicates_idempotent (db : DBState) (now now2 : Int)
    (vid title chan : String) (hours : Int)
    (hpost : ∀ p ∈ db.posted_videos, (p.video_id == vid) = false)
    (hlemmy : ∀ p ∈ db.lemmy_posts, strContains p.url vid = false)
    (hwin : ∀ e ∈ db.duplicate_tracking,
      (e.title_hash == generate_title_hash title && e.channel_id == chan
        && decide (e.detected_at > now - hours * 3600)) = false)
    (hpair : ∀ e ∈ db.duplicate_tracking,
      (e.video_id == vid && e.title_hash == generate_title_hash title) = false)
    (hwindow : now2 - hours * 3600 < now) :
    (check_for_duplicates db now vid title chan hours).1 = false
    ∧ (check_for_duplicates db now vid title chan hours).2
        = { db with duplicate_tracking :=
              db.duplicate_tracking ++ [⟨vid, generate_title_hash title, chan, now⟩] }
    ∧ (check_for_duplicates (check_for_duplicates db now vid title chan hours).2
        now2 vid title chan hours).1 = true := by
  have hpostA : db.posted_videos.any (fun p => p.video_id == vid) = false := by
    rw [List.any_eq_false]; intro p hp; simp [hpost p hp]
  have hlemmyA : db.lemmy_posts.any (fun p => strContains p.url vid) = false := by
    rw [List.any_eq_false]; intro p hp; simp [hlemmy p hp]
  have hwinA : db.duplicate_tracking.any (fun e =>
      e.title_hash == generate_title_hash title && e.channel_id == chan
        && decide (e.detected_at > now - hours * 3600)) = false := by
    rw [List.any_eq_false]; intro e he; simp [hwin e he]
  have hpairA : db.duplicate_tracking.any (fun e =>
      e.video_id == vid && e.title_hash == generate_title_hash title) = false := by
    rw [List.any_eq_false]; intro e he; simp [hpair e he]
  have h1 : check_for_duplicates db now vid title chan hours
      = (false, { db with duplicate_tracking :=
          db.duplicate_tracking ++ [⟨vid, generate_title_hash title, chan, now⟩] }) := by
    simp only [check_for_duplicates, hpostA, hlemmyA, hwinA, hpairA, Bool.false_eq_true,
      if_false]
  refine ⟨by rw [h1], by rw [h1], ?_⟩
  rw [h1]
  simp only [check_for_duplicates, hpostA, hlemmyA, Bool.false_eq_true, if_false,
    List.any_append, List.any_cons, List.any_nil, beq_self_eq_true, Bool.true_and,
    Bool.or_false]
  have hdec : decide (now > now2 - hours * 3600) = true := decide_eq_true hwindow
  simp [hdec]

/-- Witness for C2 amended on the empty store: the first call admits
and records, the immediate second call inside the 48h window reports a
duplicate. -/
theorem check_for_duplicates_idempotent_witness :
    (check_for_duplicates {} 100 "vidA" "Rally Finland Highlights" "chan1" 48).1 = false
    ∧ (check_for_duplicates
        (check_for_duplicates {} 100 "vidA" "Rally Finland Highlights" "chan1" 48).2
        160 "vidA" "Rally Finland Highlights" "chan1" 48).1 = true := by
  have h := check_for_duplicates_idempotent {} 100 160 "vidA" "Rally Finland Highlights"
    "chan1" 48 (by simp) (by simp) (by simp) (by simp) (by omega)
  exact ⟨h.1, h.2.2⟩

set_option maxRecDepth 10000 in
/-- C2 counterexample to the claim as stated: a stale tracking row
(outside the 48h window, hence not excluded by the claim's
precondition) already holds the same `(video_id, title_hash)` pair, so
`INSERT OR IGNORE` is a no-op, the old `detected_at` is not refreshed,
and the second call still returns false instead of true. -/
theorem check_for_duplicates_not_idempotent_on_stale_pair :
    (check_for_duplicates
      { duplicate_tracking :=
          [⟨"vidA", generate_title_hash "Rally Finland Highlights", "chan1", 0⟩] }
      1000000 "vidA" "Rally Finland Highlights" "chan1" 48).1 = false
    ∧ (check_for_duplicates
        { duplicate_tracking :=
            [⟨"vidA", generate_title_hash "Rally Finland Highlights", "chan1", 0⟩] }
        1000000 "vidA" "Rally Finland Highlights" "chan1" 48).2
      = { duplicate_tracking :=
            [⟨"vidA", generate_title_hash "Rally Finland Highlights", "chan1", 0⟩] }
    ∧ (check_for_duplicates
        (check_for_duplicates
          { duplicate_tracking :=
              [⟨"vidA", generate_title_hash "Rally Finland Highlights", "chan1", 0⟩] }
          1000000 "vidA" "Rally Finland Highlights" "chan1" 48).2
        1000060 "vidA" "Rally Finland Highlights" "chan1" 48).1 = false := by decide

/-- C3 counterexample to the claim as stated: an upcoming item whose
scheduled start (100) is already behind `now` (1000) is NOT discarded
without caching — the classifier routes it into the cache write
(youtube.py:386-391, `is_livestream=False`), whose parameter-binding
mismatch raises, so the outcome is an aborted scan rather than the
claimed clean discard with an unchanged cache. -/
theorem upcoming_past_start_not_discarded :
    YouTubeAPI.classifyVideoItem {} [] 1000
      { video_id := "vid1", channel_id := "chan1", duration := "P0D",
        scheduled_start_time := some 100 }
      = Except.error sqliteBindingError
    ∧ YouTubeAPI.classifyVideoItem {} [] 1000
      { video_id := "vid1", channel_id := "chan1", duration := "P0D",
        scheduled_start_time := some 100 }
      ≠ Except.ok (none, []) := by
  have h1 : YouTubeAPI.classifyVideoItem {} [] 1000
      { video_id := "vid1", channel_id := "chan1", duration := "P0D",
        scheduled_start_time := some 100 }
      = Except.error sqliteBindingError := rfl
  refine ⟨h1, fun h => ?_⟩
  rw [h1] at h
  exact Except.noConfusion h

/-- C3 amended: `add_video_to_old_cache` returns without touching the
store whenever the livestream flag is set, and for every other call
the mis-bound `INSERT` raises instead of writing, so no entry of any
kind — live, upcoming or ordinary — is ever added to the negative
cache; but upcoming items whose scheduled start is already in the past
are not discarded by the classifier: their attempted cache write
raises and the scan aborts. -/
theorem old_cache_never_writes :
    (∀ (cache : List CacheEntry) (vid chan : String) (now days : Int),
      add_video_to_old_cache cache vid chan true now days = Except.ok cache)
    ∧ (∀ (cache : List CacheEntry) (vid chan : String) (now days : Int),
      add_video_to_old_cache cache vid chan false now days = Except.error sqliteBindingError)
    ∧ (∀ (cache : List CacheEntry) (vid chan : String) (flag : Bool) (now days : Int)
        (cache2 : List CacheEntry),
        add_video_to_old_cache cache vid chan flag now days = Except.ok cache2 →
        cache2 = cache)
    ∧ ∀ (cfg : YTConfig) (cache : List CacheEntry) (now : Int)
        (item : VideoDetailItem) (t : Int),
        item.scheduled_start_time = some t → t < now →
        YouTubeAPI.classifyVideoItem cfg cache now item
          = Except.error sqliteBindingError := by
  refine ⟨fun cache vid chan now days => rfl, fun cache vid chan now days => rfl, ?_, ?_⟩
  · intro cache vid chan flag now days cache2 h
    cases flag
    · simp [add_video_to_old_cache] at h
    · simp [add_video_to_old_cache] at h
      exact h.symm
  · intro cfg cache now item t hsched hlt
    simp only [YouTubeAPI.classifyVideoItem, hsched, Option.isSome_some, Bool.not_true,
      Bool.false_and, Bool.and_false, Bool.false_eq_true, if_false, decide_eq_true hlt,
      Bool.true_and, if_true, add_video_to_old_cache]

/-- Witness for C3 amended: concrete live-flagged no-op, concrete
raising non-livestream call, concrete preserved cache extracted from a
successful (livestream) result, and a concrete past-start upcoming
item whose classification aborts. -/
theorem old_cache_never_writes_witness :
    add_video_to_old_cache [] "vidW" "chanW" true 2000 30 = Except.ok []
    ∧ add_video_to_old_cache [] "vidW" "chanW" false 2000 30
        = Except.error sqliteBindingError
    ∧ ([] : List CacheEntry) = []
    ∧ YouTubeAPI.classifyVideoItem {} [] 2000
        { video_id := "vidW", channel_id := "chanW", duration := "P0D",
          scheduled_start_time := some 500 }
      = Except.error sqliteBindingError :=
  ⟨old_cache_never_writes.1 [] "vidW" "chanW" 2000 30,
    old_cache_never_writes.2.1 [] "vidW" "chanW" 2000 30,
    old_cache_never_writes.2.2.1 [] "vidW" "chanW" true 2000 30 [] rfl,
    old_cache_never_writes.2.2.2 {} [] 2000
      { video_id := "vidW", channel_id := "chanW", duration := "P0D",
        scheduled_start_time := some 500 } 500 rfl (by omega)⟩

/-- C7 counterexample to the claim as stated: the API-layer check does
exempt `P0D`, but the scorer-layer short-form check has no sentinel
exception — it classifies a live item with duration `P0D` as
short-form, and the acceptability check therefore rejects that item
even though its score (85) clears the livestream threshold (60). -/
theorem p0d_short_form_counterexample :
    YouTubeAPI.is_youtube_short {} "P0D" = false
    ∧ ContentScorer.is_youtube_short {} { title := "Race live", duration := some "P0D" } = true
    ∧ calculate_content_quality_score { quality_boosters := ["official"] } 0
        { title := "Official Race live", is_livestream := true, duration := some "P0D" } = 85
    ∧ ContentScorer.is_acceptable_content { quality_boosters := ["official"] } 0
        { title := "Official Race live", is_livestream := true, duration := some "P0D" }
      = false := by decide

/-- C7 amended: only the API-layer check (`YouTubeAPI.is_youtube_short`)
exempts the `P0D` live-broadcast sentinel, so the sentinel never causes
a negative-cache write through that path; the scorer-layer check
classifies every `P0D` duration as short-form, and the acceptability
check consequently rejects any item carrying the sentinel. -/
theorem p0d_sentinel_checks :
    (∀ cfg : YTConfig, YouTubeAPI.is_youtube_short cfg "P0D" = false)
    ∧ (∀ (cfg : ScorerConfig) (v : VideoData), v.duration = some "P0D" →
        ContentScorer.is_youtube_short cfg v = true)
    ∧ (∀ (cfg : ScorerConfig) (now : Int) (v : VideoData), v.duration = some "P0D" →
        ContentScorer.is_acceptable_content cfg now v = false) := by
  have hshort : ∀ (cfg : ScorerConfig) (v : VideoData), v.duration = some "P0D" →
      ContentScorer.is_youtube_short cfg v = true := by
    intro cfg v h
    simp only [ContentScorer.is_youtube_short, h]
    split <;> rfl
  refine ⟨fun cfg => rfl, hshort, ?_⟩
  intro cfg now v h
  simp only [ContentScorer.is_acceptable_content, hshort cfg v h]
  split_ifs <;> rfl

/-- Witness for C7 amended at a concrete live candidate carrying the
sentinel duration. -/
theorem p0d_sentinel_checks_witness :
    YouTubeAPI.is_youtube_short {} "P0D" = false
    ∧ ContentScorer.is_youtube_short {}
        { title := "Qualifying live", duration := some "P0D" } = true
    ∧ ContentScorer.is_acceptable_content {} 0
        { title := "Qualifying live", is_livestream := true, duration := some "P0D" }
      = false :=
  ⟨p0d_sentinel_checks.1 {},
    p0d_sentinel_checks.2.1 {} { title := "Qualifying live", duration := some "P0D" } rfl,
    p0d_sentinel_checks.2.2 {} 0
      { title := "Qualifying live", is_livestream := true, duration := some "P0D" } rfl⟩

/-- C4: with a database attached, `should_post_video` rejects whenever
the rolling 24h publish count has reached the daily cap (regardless of
score), likewise for the rolling 1h count against the hourly cap, and
below both caps it rejects exactly when the score is under the
applicable threshold (livestream threshold for live candidates). -/
theorem should_post_video_rate_limit (cfg : BotConfig) (posted : List PostedRecord)
    (now : Int) (v : VideoData) :
    (get_recent_posts_count posted now 24 ≥ cfg.max_posts_per_day →
      BlueFlagBot.should_post_video cfg (some posted) now v = false)
    ∧ (get_recent_posts_count posted now 1 ≥ cfg.max_posts_per_hour →
      BlueFlagBot.should_post_video cfg (some posted) now v = false)
    ∧ (get_recent_posts_count posted now 24 < cfg.max_posts_per_day →
      get_recent_posts_count posted now 1 < cfg.max_posts_per_hour →
      (BlueFlagBot.should_post_video cfg (some posted) now v = false
        ↔ v.quality_score < (if v.is_livestream then cfg.livestream_quality_threshold
            else cfg.min_quality_threshold))) := by
  simp only [BlueFlagBot.should_post_video]
  refine ⟨fun h => ?_, fun h => ?_, fun hd hh => ?_⟩
  · rw [if_pos h]
  · by_cases h1 : get_recent_posts_count posted now 24 ≥ cfg.max_posts_per_day
    · rw [if_pos h1]
    · rw [if_neg h1, if_pos h]
  · rw [if_neg (by omega), if_neg (by omega)]
    cases hv : v.is_livestream <;> simp only [hv, Bool.false_eq_true, if_false, if_true] <;>
      split_ifs with h3 <;> simp [h3]

/-- Witness for C4: three recent records against caps of three force a
reject regardless of the score 99; with empty history and default
caps, a score of 64 fails the normal threshold 65. -/
theorem should_post_video_rate_limit_witness :
    BlueFlagBot.should_post_video { max_posts_per_day := 3, max_posts_per_hour := 3 }
      (some [⟨"a", 95⟩, ⟨"b", 96⟩, ⟨"c", 97⟩]) 100 { title := "t", quality_score := 99 }
      = false
    ∧ BlueFlagBot.should_post_video {} (some []) 100 { title := "t", quality_score := 64 }
      = false := by
  constructor
  · exact (should_post_video_rate_limit { max_posts_per_day := 3, max_posts_per_hour := 3 }
      [⟨"a", 95⟩, ⟨"b", 96⟩, ⟨"c", 97⟩] 100 { title := "t", quality_score := 99 }).1 (by decide)
  · exact ((should_post_video_rate_limit {} [] 100
      { title := "t", quality_score := 64 }).2.2 (by decide) (by decide)).mpr (by decide)

/-- Upserting today's quota row adds exactly the committed cost to the
durable daily reading. -/
theorem get_youtube_quota_usage_upsert (stats : List BotStatsRow) (today cost : Int) :
    get_youtube_quota_usage (upsert_quota stats today cost) today
      = get_youtube_quota_usage stats today + cost := by
  induction stats with
  | nil => simp [upsert_quota, get_youtube_quota_usage]
  | cons r rs ih =>
    simp only [upsert_quota]
    by_cases h : (r.date == today) = true
    · rw [if_pos h]
      simp only [get_youtube_quota_usage]
      have hf1 : List.find? (fun x : BotStatsRow => x.date == today)
          ({ r with youtube_quota_used := r.youtube_quota_used + cost } :: rs)
          = some { r with youtube_quota_used := r.youtube_quota_used + cost } :=
        List.find?_cons_of_pos _ h
      have hf2 : List.find? (fun x : BotStatsRow => x.date == today) (r :: rs) = some r :=
        List.find?_cons_of_pos _ h
      rw [hf1, hf2]
    · rw [if_neg h]
      simp only [get_youtube_quota_usage] at ih ⊢
      have hf1 : List.find? (fun x : BotStatsRow => x.date == today)
          (r :: upsert_quota rs today cost)
          = List.find? (fun x : BotStatsRow => x.date == today) (upsert_quota rs today cost) :=
        List.find?_cons_of_neg _ h
      have hf2 : List.find? (fun x : BotStatsRow => x.date == today) (r :: rs)
          = List.find? (fun x : BotStatsRow => x.date == today) rs :=
        List.find?_cons_of_neg _ h
      rw [hf1, hf2]
      exact ih

/-- C5: `check_quota_limit` (with a database attached) answers false
exactly when the estimated cost would push either the per-run counter
past the per-run limit or today's durable counter past the daily
limit; it is a pure read (the state components are untouched), and
`track_quota_usage` is what adds the actual cost to both counters. -/
theorem quota_gate_check_and_commit (cfg : QuotaConfig) (used : Int)
    (stats : List BotStatsRow) (today est cost : Int) :
    (YouTubeAPI.check_quota_limit cfg ⟨used, some stats⟩ today est = false
      ↔ (used + est > cfg.run_quota_limit
         ∨ get_youtube_quota_usage stats today + est > cfg.daily_quota_limit))
    ∧ (YouTubeAPI.track_quota_usage ⟨used, some stats⟩ today cost).quota_used_this_run
        = used + cost
    ∧ (YouTubeAPI.track_quota_usage ⟨used, some stats⟩ today cost).db
        = some (upsert_quota stats today cost)
    ∧ get_youtube_quota_usage (upsert_quota stats today cost) today
        = get_youtube_quota_usage stats today + cost := by
  refine ⟨?_, rfl, rfl, get_youtube_quota_usage_upsert stats today cost⟩
  simp only [YouTubeAPI.check_quota_limit]
  split_ifs with h1 h2
  · simp [h1]
  · simp [h2]
  · simp [h1, h2]

/-- C10: constructed without a state store, `should_post_video` admits
every candidate — daily cap, hourly cap and both thresholds are all
skipped. -/
theorem no_db_admits_everything (cfg : BotConfig) (now : Int) (v : VideoData) :
    BlueFlagBot.should_post_video cfg none now v = true := rfl

/-- C9: when the destination create call fails for an admitted
candidate, `create_lemmy_post` returns no post id and leaves the state
store untouched — no `posted_videos` record, so the rolling publish
counts later admissions read are unchanged — and the cycle loop counts
one error and proceeds to the remaining candidates. -/
theorem publish_failure_no_record (cfg : BotConfig) (cid : Nat) (db : DBState) (now : Int)
    (v : VideoData) (rest : List (VideoData × Option Nat)) (pm err : Nat)
    (h1 : pm < cfg.max_posts_per_run)
    (h2 : BlueFlagBot.should_post_video cfg (some db.posted_videos) now v = true) :
    BlueFlagBot.create_lemmy_post (some db) now (some cid) none v = (none, some db)
    ∧ BlueFlagBot.run_once_loop cfg (some cid) (some db) now ((v, none) :: rest) pm err
        = BlueFlagBot.run_once_loop cfg (some cid) (some db) now rest pm (err + 1)
    ∧ ∀ (hrs now2 : Int),
        get_recent_posts_count
          (((BlueFlagBot.create_lemmy_post (some db) now (some cid) none v).2.map
            (fun d => d.posted_videos)).getD []) now2 hrs
        = get_recent_posts_count db.posted_videos now2 hrs := by
  refine ⟨rfl, ?_, fun hrs now2 => rfl⟩
  simp only [BlueFlagBot.run_once_loop, Option.map_some']
  rw [if_neg (by omega)]
  simp only [h2, Bool.not_true, Bool.false_eq_true, if_false]
  rfl

/-- Witness for C9: one admitted candidate whose create call fails
leaves the empty store empty, makes no post and counts one error. -/
theorem publish_failure_no_record_witness :
    BlueFlagBot.run_once_loop {} (some 1) (some ({} : DBState)) 50
      [({ title := "t", quality_score := 70 }, none)] 0 0 = (some ({} : DBState), 0, 1) := by
  have h := publish_failure_no_record {} 1 {} 50 { title := "t", quality_score := 70 } [] 0 0
    (by decide) (by decide)
  rw [h.2.1]
  rfl
